import Mathlib

/-
Verification of the rebirth hot-reload supervisor (src/config.go, src/reloader.go).

The Go code is shallowly embedded as pure Lean functions over an explicit
state.  External effects (hook commands, the compiler, docker, the child
process, the pid file) are modelled by an oracle structure `World` giving the
success or failure of each external operation, plus an effect trace recording
what was executed and in which order.  Machine integers are modelled as `Nat`
and `Int` with the 64-bit range made explicit where the source checks it.
-/

namespace Rebirth

/-! ## Identity Store content: decimal rendering and parsing

`writePID` stores `fmt.Sprintf("%d", pid)` (reloader.go:199-205) and
`readPID` recovers it with `strconv.ParseInt(s, 10, 64)` (reloader.go:187-197).
We model the file content as a list of characters, the renderer as `natToDecimal`
(the pid written is `os.Getpid()`, a non-negative machine integer) and the
parser as `decimalToInt` (sign handling and the 64-bit range check of
`ParseInt` included). -/

def digitChar (n : Nat) : Char := Char.ofNat (48 + n)

/-- Decimal rendering of a non-negative integer, most significant digit
first, as produced by the `%d` format verb for a non-negative value. -/
def natToDecimal (n : Nat) : List Char :=
  if _h : n < 10 then [digitChar n]
  else natToDecimal (n / 10) ++ [digitChar (n % 10)]
decreasing_by exact Nat.div_lt_self (by omega) (by omega)

def isDigitChar (c : Char) : Bool := 48 ≤ c.toNat && c.toNat ≤ 57

def digitVal (c : Char) : Nat := c.toNat - 48

/-- Accumulator loop of decimal parsing: fails on the first non-digit. -/
def parseDigits (acc : Nat) : List Char → Option Nat
  | [] => some acc
  | c :: rest => if isDigitChar c then parseDigits (acc * 10 + digitVal c) rest else none

/-- Parse an unsigned decimal string; the empty string is a syntax error,
as in `strconv.ParseUint`. -/
def parseUnsigned (cs : List Char) : Option Nat :=
  if cs.isEmpty then none else parseDigits 0 cs

/-- The cutoff of `strconv.ParseInt(s, 10, 64)`: values of magnitude
2^63 and above (2^63 itself only for the negative sign) are out of range. -/
def int64Cutoff : Nat := 2 ^ 63

/-- Model of `strconv.ParseInt(s, 10, 64)`: optional sign, decimal digits,
64-bit range check; `none` is any of the error returns. -/
def decimalToInt (cs : List Char) : Option Int :=
  match cs with
  | [] => none
  | c :: rest =>
    if c = '-' then
      match parseUnsigned rest with
      | none => none
      | some u => if u ≤ int64Cutoff then some (-(Int.ofNat u)) else none
    else if c = '+' then
      match parseUnsigned rest with
      | none => none
      | some u => if u < int64Cutoff then some (Int.ofNat u) else none
    else
      match parseUnsigned (c :: rest) with
      | none => none
      | some u => if u < int64Cutoff then some (Int.ofNat u) else none

lemma digitChar_isDigit (n : Nat) (h : n < 10) : isDigitChar (digitChar n) = true := by
  interval_cases n <;> decide

lemma digitVal_digitChar (n : Nat) (h : n < 10) : digitVal (digitChar n) = n := by
  interval_cases n <;> decide

lemma parseDigits_append (acc : Nat) (xs ys : List Char) :
    parseDigits acc (xs ++ ys) = (parseDigits acc xs).bind (fun a => parseDigits a ys) := by
  induction xs generalizing acc with
  | nil => simp [parseDigits]
  | cons x xs ih =>
    by_cases hx : isDigitChar x = true
    · simp [parseDigits, hx, ih]
    · simp [parseDigits, hx]

lemma parseDigits_natToDecimal (n : Nat) :
    ∀ acc : Nat, parseDigits acc (natToDecimal n)
      = some (acc * 10 ^ (natToDecimal n).length + n) := by
  induction n using Nat.strong_induction_on with
  | _ n ih =>
    intro acc
    by_cases h : n < 10
    · rw [natToDecimal]
      simp [h, parseDigits, digitChar_isDigit n h, digitVal_digitChar n h]
    · rw [natToDecimal]
      simp only [h, dite_false]
      rw [parseDigits_append,
        ih (n / 10) (Nat.div_lt_self (by omega) (by omega)) acc]
      have h10 : n % 10 < 10 := Nat.mod_lt _ (by omega)
      simp only [Option.some_bind, parseDigits, digitChar_isDigit _ h10,
        digitVal_digitChar _ h10, if_true, List.length_append,
        List.length_singleton]
      have hpow : 10 ^ ((natToDecimal (n / 10)).length + 1)
          = 10 ^ (natToDecimal (n / 10)).length * 10 := pow_succ 10 _
      rw [hpow]
      have hdm : n / 10 * 10 + n % 10 = n := by omega
      refine congrArg some ?_
      calc (acc * 10 ^ (natToDecimal (n / 10)).length + n / 10) * 10 + n % 10
          = acc * (10 ^ (natToDecimal (n / 10)).length * 10) + (n / 10 * 10 + n % 10) := by
            ring
        _ = acc * (10 ^ (natToDecimal (n / 10)).length * 10) + n := by rw [hdm]

lemma natToDecimal_ne_nil (n : Nat) : natToDecimal n ≠ [] := by
  rw [natToDecimal]
  split <;> simp

lemma natToDecimal_all_digits (n : Nat) :
    ∀ c ∈ natToDecimal n, isDigitChar c = true := by
  induction n using Nat.strong_induction_on with
  | _ n ih =>
    intro c hc
    rw [natToDecimal] at hc
    by_cases h : n < 10
    · simp [h] at hc
      exact hc ▸ digitChar_isDigit n h
    · simp [h] at hc
      rcases hc with hc | hc
      · exact ih (n / 10) (Nat.div_lt_self (by omega) (by omega)) c hc
      · exact hc ▸ digitChar_isDigit _ (Nat.mod_lt _ (by omega))

lemma parseUnsigned_natToDecimal (n : Nat) : parseUnsigned (natToDecimal n) = some n := by
  unfold parseUnsigned
  rw [if_neg (by simpa [List.isEmpty_iff] using natToDecimal_ne_nil n)]
  simpa using parseDigits_natToDecimal n 0

/-- Round trip of the pid file content: rendering a 64-bit-representable
non-negative integer in decimal and parsing it back recovers the value. -/
lemma decimalToInt_natToDecimal (n : Nat) (h : n < int64Cutoff) :
    decimalToInt (natToDecimal n) = some (Int.ofNat n) := by
  obtain ⟨c, rest, hcr⟩ := List.exists_cons_of_ne_nil (natToDecimal_ne_nil n)
  have hd : isDigitChar c = true :=
    natToDecimal_all_digits n c (by rw [hcr]; exact List.mem_cons_self c rest)
  have hcm : ¬(c = '-') := by
    intro e
    rw [e] at hd
    exact absurd hd (by decide)
  have hcp : ¬(c = '+') := by
    intro e
    rw [e] at hd
    exact absurd hd (by decide)
  rw [hcr]
  simp only [decimalToInt, if_neg hcm, if_neg hcp]
  rw [← hcr, parseUnsigned_natToDecimal n]
  simp [h]

/-! ## Configuration data model (src/config.go)

`config.go` declares `Host`, `Build`, `Run` and `Config`.  Note: the `Build`
struct actually declared in config.go (lines 20-22) carries only the `env`
mapping, whereas reloader.go accesses `r.build.Init`, `r.build.Before` and
`r.build.After` (lines 105, 115, 125); the build configuration the reloader
code requires is therefore the four-field `Build` below, and the two-field
struct literally declared in config.go is embedded separately as
`ConfigBuild` (see the C9 theorems). -/

structure Host where
  docker : String
  deriving DecidableEq

/-- The build configuration as required by reloader.go: three ordered hook
command lists plus the environment mapping. -/
structure Build where
  init : List String
  before : List String
  after : List String
  env : List (String × String)
  deriving DecidableEq

/-- The `Build` struct as literally declared in config.go lines 20-22:
it carries only the environment mapping. -/
structure ConfigBuild where
  env : List (String × String)
  deriving DecidableEq

/-- A YAML document build section as the spec describes it: three ordered
command lists plus the environment mapping. -/
structure BuildSectionDoc where
  init : List String
  before : List String
  after : List String
  env : List (String × String)
  deriving DecidableEq

/-- What `LoadConfig` (config.go lines 28-38) retains of a build section:
`yaml.Unmarshal` fills exactly the tagged fields of the declared struct, and
the struct declared in config.go tags only `env`, so the three command lists
of the document are dropped. -/
def loadBuildSection (d : BuildSectionDoc) : ConfigBuild :=
  { env := d.env }

structure RunCfg where
  env : List (String × String)
  deriving DecidableEq

/-! ## Reloader state machine (src/reloader.go)

The static part of the Go `Reloader` struct (host, build, run) is the
`Reloader` record; the mutable `cmd` field, the pid file and the effect trace
form the dynamic state `St`.  External outcomes are an oracle `World`:
`onDocker` is the `/.dockerenv` marker probed by `isOnDockerContainer`,
`ownPid` is `os.Getpid()`, and the remaining fields give the success of each
external operation (file write, hook command, compiler invocation, child
stop, docker command). -/

structure Reloader where
  host : Option Host
  build : Build
  run : Option RunCfg

/-- The process handle created by `NewCommand(buildPath)` plus `AddEnv`. -/
structure Command where
  path : String
  env : List (String × String)
  deriving DecidableEq

/-- Observable external effects, in execution order. -/
inductive Event where
  | writePid (pid : Nat)
  | readPid
  | runHookCmd (cmd : String)
  | compile (target source : String) (cross : Option String)
  | stopProc
  | startProc (path : String) (env : List (String × String))
  | dockerExec (container : String) (args : List String)
  deriving DecidableEq

/-- Error atoms; the `xerrors.Errorf` wrappers add context strings but keep
the failure cause, so each distinct cause is one constructor. -/
inductive Err where
  | pidWriteFailed
  | pidFileNotFound
  | pidParseFailed
  | hookFailed (cmd : String)
  | compileFailed (target : String)
  | stopFailed
  | dockerFailed (container : String) (args : List String)
  deriving DecidableEq

/-- Dynamic state: the tracked child (`r.cmd`), the pid file at `pidPath`,
and the trace of external effects so far. -/
structure St where
  cmd : Option Command
  pidFile : Option (List Char)
  trace : List Event
  deriving DecidableEq

structure World where
  onDocker : Bool
  ownPid : Nat
  writeOk : Bool
  hookResult : String → Bool
  compileOk : String → Bool
  stopOk : Bool
  dockerOk : List String → Bool

/- Well-known paths computed in the package init (reloader.go lines 28-36);
the current-working-directory prefix is a process-wide constant and is
omitted from the embedded path strings. -/

def configDir : String := ".rebirth"

def buildPath : String := ".rebirth/program"

def pidPath : String := ".rebirth/server.pid"

def dockerRebirthPath : String := ".rebirth/__rebirth"

def rebirthMainPath : String := "cmd/rebirth/main.go"

/-- reloader.go lines 178-180. -/
def isUsedDocker (r : Reloader) : Bool :=
  match r.host with
  | none => false
  | some h => !(h.docker == "")

/-- The container name, defined when `isUsedDocker` holds. -/
def dockerName (r : Reloader) : String :=
  match r.host with
  | none => ""
  | some h => h.docker

/-- reloader.go lines 134-142 (`isOnDockerContainer` is the stat of
`/.dockerenv`, i.e. the oracle flag `w.onDocker`). -/
def IsEnabledReload (r : Reloader) (w : World) : Bool :=
  if !(isUsedDocker r) then true
  else if !(w.onDocker) then true
  else false

/-- The environment overlay applied to the launched program
(reloader.go lines 224-230). -/
def runEnv (r : Reloader) : List (String × String) :=
  match r.run with
  | none => []
  | some rc => rc.env

/-- reloader.go lines 199-205: write the own pid in decimal to the pid file. -/
def writePID (w : World) (s : St) : Except Err Unit × St :=
  if w.writeOk then
    (Except.ok (), { s with pidFile := some (natToDecimal w.ownPid),
                            trace := s.trace ++ [Event.writePid w.ownPid] })
  else (Except.error Err.pidWriteFailed, s)

/-- reloader.go lines 187-197: a missing file is the read error, then the
content goes through `strconv.ParseInt`; its failure is the parse error. -/
def readPID (s : St) : Except Err Int × St :=
  let s' := { s with trace := s.trace ++ [Event.readPid] }
  match s.pidFile with
  | none => (Except.error Err.pidFileNotFound, s')
  | some content =>
    match decimalToInt content with
    | none => (Except.error Err.pidParseFailed, s')
    | some pid => (Except.ok pid, s')

/-- reloader.go lines 207-216: no tracked child is a trivial success; a
failed `Stop` keeps the record; only a successful stop clears it. -/
def stopCurrentProcess (w : World) (s : St) : Except Err Unit × St :=
  match s.cmd with
  | none => (Except.ok (), s)
  | some _ =>
    if w.stopOk then
      (Except.ok (), { s with cmd := none, trace := s.trace ++ [Event.stopProc] })
    else (Except.error Err.stopFailed, { s with trace := s.trace ++ [Event.stopProc] })

/-- reloader.go lines 218-234: stop the current child, then create a fresh
handle on the build artifact, apply the run environment, track it and start
it asynchronously (`RunAsync` does not fail the caller). -/
def reload (r : Reloader) (w : World) (s : St) : Except Err Unit × St :=
  match stopCurrentProcess w s with
  | (Except.error e, s') => (Except.error e, s')
  | (Except.ok _, s') =>
    (Except.ok (), { s' with cmd := some { path := buildPath, env := runEnv r },
                             trace := s'.trace ++ [Event.startProc buildPath (runEnv r)] })

/-- reloader.go lines 91-102: one hook command in the go toolchain context;
the build environment assembly (`ExpandPath`) is part of the external
command execution and is abstracted into the event. -/
def runBuildHookCommandInGoContext (w : World) (cmd : String) (s : St) :
    Except Err Unit × St :=
  if w.hookResult cmd then
    (Except.ok (), { s with trace := s.trace ++ [Event.runHookCmd cmd] })
  else (Except.error (Err.hookFailed cmd), { s with trace := s.trace ++ [Event.runHookCmd cmd] })

/-- The loop shared verbatim by `runBuildInitCommands`,
`runBuildBeforeCommands` and `runBuildAfterCommands`
(reloader.go lines 104-132): run each command in list order, returning the
first failure. -/
def runPhase (w : World) (cmds : List String) (s : St) : Except Err Unit × St :=
  match cmds with
  | [] => (Except.ok (), s)
  | cmd :: rest =>
    match runBuildHookCommandInGoContext w cmd s with
    | (Except.error e, s') => (Except.error e, s')
    | (Except.ok _, s') => runPhase w rest s'

/-- reloader.go lines 104-112. -/
def runBuildInitCommands (r : Reloader) (w : World) (s : St) : Except Err Unit × St :=
  runPhase w r.build.init s

/-- reloader.go lines 114-122. -/
def runBuildBeforeCommands (r : Reloader) (w : World) (s : St) : Except Err Unit × St :=
  runPhase w r.build.before s

/-- reloader.go lines 124-132. -/
def runBuildAfterCommands (r : Reloader) (w : World) (s : St) : Except Err Unit × St :=
  runPhase w r.build.after s

/-- The cross-build target of `xbuild` (reloader.go lines 284-286): set
exactly when a docker host is configured and we are not inside the
container. -/
def crossOf (r : Reloader) (w : World) : Option String :=
  if isUsedDocker r && !(w.onDocker) then some (dockerName r) else none

/-- reloader.go lines 271-294: before hooks, then the compiler (cross
targeted per `crossOf`), then after hooks; any failure aborts. -/
def xbuild (r : Reloader) (w : World) (target source : String) (s : St) :
    Except Err Unit × St :=
  match runBuildBeforeCommands r w s with
  | (Except.error e, s') => (Except.error e, s')
  | (Except.ok _, s') =>
    if w.compileOk target then
      match runBuildAfterCommands r w
          { s' with trace := s'.trace ++ [Event.compile target source (crossOf r w)] } with
      | (Except.error e, s'') => (Except.error e, s'')
      | (Except.ok _, s'') => (Except.ok (), s'')
    else
      (Except.error (Err.compileFailed target),
        { s' with trace := s'.trace ++ [Event.compile target source (crossOf r w)] })

/-- reloader.go lines 253-269: cross-compile the supervisor itself for the
docker target into `dockerRebirthPath` (only ever called in the
host-delegating branch, where the docker host is configured). -/
def xbuildRebirth (r : Reloader) (w : World) (s : St) : Except Err Unit × St :=
  if w.compileOk dockerRebirthPath then
    (Except.ok (), { s with trace := s.trace ++
      [Event.compile dockerRebirthPath rebirthMainPath (some (dockerName r))] })
  else
    (Except.error (Err.compileFailed dockerRebirthPath),
      { s with trace := s.trace ++
        [Event.compile dockerRebirthPath rebirthMainPath (some (dockerName r))] })

/-- reloader.go lines 296-312: with a docker host configured, read the peer
pid and deliver `kill -HUP` inside the container; otherwise restart the
child in process. -/
def sendReloadingSignal (r : Reloader) (w : World) (s : St) : Except Err Unit × St :=
  if isUsedDocker r then
    match readPID s with
    | (Except.error e, s') => (Except.error e, s')
    | (Except.ok pid, s') =>
      let args := ["kill", "-HUP", toString pid]
      if w.dockerOk args then
        (Except.ok (), { s' with trace := s'.trace ++ [Event.dockerExec (dockerName r) args] })
      else
        (Except.error (Err.dockerFailed (dockerName r) args),
          { s' with trace := s'.trace ++ [Event.dockerExec (dockerName r) args] })
  else reload r w s

/-- reloader.go lines 144-152: the external trigger entry point — rebuild
the artifact, then deliver the reloading signal. -/
def Reload (r : Reloader) (w : World) (s : St) : Except Err Unit × St :=
  match xbuild r w buildPath "." s with
  | (Except.error e, s') => (Except.error e, s')
  | (Except.ok _, s') => sendReloadingSignal r w s'

/-- reloader.go lines 154-176: with no docker host Close returns at once;
inside the container it stops the tracked child; on the host it reads the
peer pid and delivers `kill -QUIT` inside the container. -/
def Close (r : Reloader) (w : World) (s : St) : Except Err Unit × St :=
  if !(isUsedDocker r) then (Except.ok (), s)
  else if w.onDocker then
    match stopCurrentProcess w s with
    | (Except.error e, s') => (Except.error e, s')
    | (Except.ok _, s') => (Except.ok (), s')
  else
    match readPID s with
    | (Except.error e, s') => (Except.error e, s')
    | (Except.ok pid, s') =>
      let args := ["kill", "-QUIT", toString pid]
      if w.dockerOk args then
        (Except.ok (), { s' with trace := s'.trace ++ [Event.dockerExec (dockerName r) args] })
      else
        (Except.error (Err.dockerFailed (dockerName r) args),
          { s' with trace := s'.trace ++ [Event.dockerExec (dockerName r) args] })

/-- First arm of `Run` (reloader.go lines 54-60), taken when the reload
watcher is disabled, i.e. inside the remote container: persist the own pid,
then start the prebuilt program. -/
def insideRemoteStartup (r : Reloader) (w : World) (s : St) : Except Err Unit × St :=
  match writePID w s with
  | (Except.error e, s') => (Except.error e, s')
  | (Except.ok _, s') => reload r w s'

/-- Second arm of `Run` (reloader.go lines 61-71): cross-compile the
supervisor, run the init hooks, build the program for the host, then launch
the cross-compiled supervisor inside the container fire-and-forget (the
`go ... Run()` result is discarded, so it cannot fail this flow). -/
def hostDelegatingStartup (r : Reloader) (w : World) (s : St) : Except Err Unit × St :=
  match xbuildRebirth r w s with
  | (Except.error e, s') => (Except.error e, s')
  | (Except.ok _, s') =>
    match runBuildInitCommands r w s' with
    | (Except.error e, s'') => (Except.error e, s'')
    | (Except.ok _, s'') =>
      match xbuild r w buildPath "." s'' with
      | (Except.error e, s₃) => (Except.error e, s₃)
      | (Except.ok _, s₃) =>
        (Except.ok (), { s₃ with trace := s₃.trace ++
          [Event.dockerExec (dockerName r) [dockerRebirthPath]] })

/-- Third arm of `Run` (reloader.go lines 72-83), the localhost reloader:
init hooks, build, then start the program. -/
def localStartup (r : Reloader) (w : World) (s : St) : Except Err Unit × St :=
  match runBuildInitCommands r w s with
  | (Except.error e, s') => (Except.error e, s')
  | (Except.ok _, s') =>
    match xbuild r w buildPath "." s' with
    | (Except.error e, s'') => (Except.error e, s'')
    | (Except.ok _, s'') => reload r w s''

/-- The branch selection and startup sequence of `Run`
(reloader.go lines 53-89) up to `watchReloadSignal`; the final infinite
sleep loop never returns and the installed signal handler is modelled by
`sighupHandler` below. -/
def RunStartup (r : Reloader) (w : World) (s : St) : Except Err Unit × St :=
  if !(IsEnabledReload r w) then insideRemoteStartup r w s
  else if isUsedDocker r && !(w.onDocker) then hostDelegatingStartup r w s
  else localStartup r w s

/-- The body the `watchReloadSignal` goroutine (reloader.go lines 236-246)
runs for each received SIGHUP: `go r.reload()`. -/
def sighupHandler (r : Reloader) (w : World) (s : St) : Except Err Unit × St :=
  reload r w s

/-! ## Topology Mode, as the spec states it -/

inductive TopologyMode where
  | Local
  | HostDelegating
  | InsideRemote
  deriving DecidableEq

/-- Modelled from the spec wording, for comparison with the code: the pure
mapping from (remote-target-configured, inside-remote-marker-present) to the
mode. -/
def topologyMode (remoteConfigured insideMarker : Bool) : TopologyMode :=
  if !remoteConfigured then TopologyMode.Local
  else if insideMarker then TopologyMode.InsideRemote
  else TopologyMode.HostDelegating

/-! ## Helper lemmas -/

lemma runPhase_ok (w : World) (cmds : List String) (s : St)
    (h : ∀ x ∈ cmds, w.hookResult x = true) :
    runPhase w cmds s = (Except.ok (), { s with trace := s.trace ++ cmds.map Event.runHookCmd }) := by
  induction cmds generalizing s with
  | nil => simp [runPhase]
  | cons x xs ih =>
    have hx : w.hookResult x = true := h x (List.mem_cons_self x xs)
    simp only [runPhase, runBuildHookCommandInGoContext, hx, if_true]
    rw [ih _ (fun y hy => h y (List.mem_cons_of_mem x hy))]
    simp

lemma runPhase_failfast (w : World) (s : St) (pre post : List String) (c : String)
    (hpre : ∀ x ∈ pre, w.hookResult x = true) (hc : w.hookResult c = false) :
    runPhase w (pre ++ c :: post) s =
      (Except.error (Err.hookFailed c),
        { s with trace := s.trace ++ pre.map Event.runHookCmd ++ [Event.runHookCmd c] }) := by
  induction pre generalizing s with
  | nil => simp [runPhase, runBuildHookCommandInGoContext, hc]
  | cons x xs ih =>
    have hx : w.hookResult x = true := hpre x (List.mem_cons_self x xs)
    simp only [List.cons_append, List.append_eq, runPhase,
      runBuildHookCommandInGoContext, hx, if_true]
    rw [ih _ (fun y hy => hpre y (List.mem_cons_of_mem x hy))]
    simp

lemma readPID_decimal (s : St) (p : Nat) (hp : p < int64Cutoff)
    (h : s.pidFile = some (natToDecimal p)) :
    readPID s = (Except.ok (Int.ofNat p), { s with trace := s.trace ++ [Event.readPid] }) := by
  simp [readPID, h, decimalToInt_natToDecimal p hp]

lemma xbuild_ok (r : Reloader) (w : World) (target source : String) (s : St)
    (hb : ∀ x ∈ r.build.before, w.hookResult x = true)
    (ha : ∀ x ∈ r.build.after, w.hookResult x = true)
    (hcmp : w.compileOk target = true) :
    xbuild r w target source s =
      (Except.ok (), { s with
        trace := s.trace
          ++ r.build.before.map Event.runHookCmd
          ++ [Event.compile target source (crossOf r w)]
          ++ r.build.after.map Event.runHookCmd }) := by
  unfold xbuild runBuildBeforeCommands runBuildAfterCommands
  rw [runPhase_ok w r.build.before s hb]
  simp only [hcmp, if_true]
  rw [runPhase_ok w r.build.after _ ha]

lemma xbuild_compile_fail (r : Reloader) (w : World) (target source : String) (s : St)
    (hb : ∀ x ∈ r.build.before, w.hookResult x = true)
    (hcmp : w.compileOk target = false) :
    xbuild r w target source s =
      (Except.error (Err.compileFailed target),
        { s with
          trace := s.trace
            ++ r.build.before.map Event.runHookCmd
            ++ [Event.compile target source (crossOf r w)] }) := by
  unfold xbuild runBuildBeforeCommands
  rw [runPhase_ok w r.build.before s hb]
  simp [hcmp, List.append_assoc]

lemma reload_fresh (r : Reloader) (w : World) (s : St) (h : s.cmd = none) :
    reload r w s =
      (Except.ok (), { s with
        cmd := some { path := buildPath, env := runEnv r },
        trace := s.trace ++ [Event.startProc buildPath (runEnv r)] }) := by
  simp [reload, stopCurrentProcess, h]

lemma reload_running (r : Reloader) (w : World) (s : St) (c : Command)
    (h : s.cmd = some c) (hst : w.stopOk = true) :
    reload r w s =
      (Except.ok (), { s with
        cmd := some { path := buildPath, env := runEnv r },
        trace := s.trace ++ [Event.stopProc, Event.startProc buildPath (runEnv r)] }) := by
  simp [reload, stopCurrentProcess, h, hst]

/-! ## Concrete fixtures for witnesses and counterexamples -/

def theBuild : Build :=
  { init := ["echo hi"], before := ["gen before"], after := ["gen after"], env := [] }

def rLocal : Reloader := { host := none, build := theBuild, run := none }

def rDocker : Reloader := { host := some { docker := "app" }, build := theBuild, run := none }

def wOK : World :=
  { onDocker := false, ownPid := 42, writeOk := true, hookResult := fun _ => true,
    compileOk := fun _ => true, stopOk := true, dockerOk := fun _ => true }

def wIn : World := { wOK with onDocker := true }

def wStopFail : World := { wOK with stopOk := false }

def wCompileFail : World := { wOK with compileOk := fun _ => false }

def s0 : St := { cmd := none, pidFile := none, trace := [] }

def cRun : Command := { path := buildPath, env := [] }

def sRun : St := { cmd := some cRun, pidFile := none, trace := [] }

def sPid7 : St := { cmd := none, pidFile := some ['7'], trace := [] }

def sPidN : St := { cmd := none, pidFile := some (natToDecimal 7), trace := [] }

def sInside : St := { cmd := some cRun, pidFile := some ['7'], trace := [] }

/-! ## Claim theorems -/

/-- C1: Topology Mode is a pure function of the pair
(remote-target-configured, inside-remote-marker-present), mapping
(false, anything) to Local, (true, true) to InsideRemote and (true, false)
to HostDelegating, and the branch selection of `Run` agrees with this
mapping: the arm guarded by the negated `IsEnabledReload` is exactly the
InsideRemote startup, the arm guarded by `isUsedDocker` and the absent
marker is exactly the HostDelegating startup, and the final arm is exactly
the Local startup. -/
theorem C1_run_branch_matches_topology (r : Reloader) (w : World) (s : St) :
    RunStartup r w s =
      (match topologyMode (isUsedDocker r) w.onDocker with
       | TopologyMode.Local => localStartup r w s
       | TopologyMode.InsideRemote => insideRemoteStartup r w s
       | TopologyMode.HostDelegating => hostDelegatingStartup r w s) := by
  unfold RunStartup topologyMode IsEnabledReload
  cases hu : isUsedDocker r <;> cases ho : w.onDocker <;> simp

/-- C7: Identity Store round trip — writing the own (64-bit representable,
non-negative) process id and then reading returns exactly that id, and a
read on an absent record fails with the distinct not-found read error,
which is a different error from the integer-parse error. -/
theorem C7_identity_store_roundtrip (w : World) (s t : St)
    (hw : w.writeOk = true) (hp : w.ownPid < int64Cutoff) (ht : t.pidFile = none) :
    (writePID w s).1 = Except.ok () ∧
    (readPID (writePID w s).2).1 = Except.ok (Int.ofNat w.ownPid) ∧
    (readPID t).1 = Except.error Err.pidFileNotFound ∧
    Err.pidFileNotFound ≠ Err.pidParseFailed := by
  refine ⟨?_, ?_, ?_, by decide⟩
  · simp [writePID, hw]
  · simp [writePID, hw, readPID, decimalToInt_natToDecimal _ hp]
  · simp [readPID, ht]

theorem C7_identity_store_roundtrip_witness :
    (writePID wOK s0).1 = Except.ok () ∧
    (readPID (writePID wOK s0).2).1 = Except.ok (Int.ofNat wOK.ownPid) ∧
    (readPID s0).1 = Except.error Err.pidFileNotFound ∧
    Err.pidFileNotFound ≠ Err.pidParseFailed :=
  C7_identity_store_roundtrip wOK s0 s0 rfl (by decide) rfl

/-- C8: build phase execution is fail-fast for each of the three phase
runners — with a command list consisting of a succeeding prefix, a failing
command `c` and an arbitrary tail, the executed-command trace is exactly
the prefix followed by `c` (so nothing after `c` runs) and the phase result
is the failure of `c`. -/
theorem C8_phase_failfast (r₁ r₂ r₃ : Reloader) (w : World) (s : St)
    (pre post : List String) (c : String)
    (hpre : ∀ x ∈ pre, w.hookResult x = true) (hc : w.hookResult c = false)
    (h1 : r₁.build.init = pre ++ c :: post)
    (h2 : r₂.build.before = pre ++ c :: post)
    (h3 : r₃.build.after = pre ++ c :: post) :
    runBuildInitCommands r₁ w s =
      (Except.error (Err.hookFailed c),
        { s with trace := s.trace ++ pre.map Event.runHookCmd ++ [Event.runHookCmd c] }) ∧
    runBuildBeforeCommands r₂ w s =
      (Except.error (Err.hookFailed c),
        { s with trace := s.trace ++ pre.map Event.runHookCmd ++ [Event.runHookCmd c] }) ∧
    runBuildAfterCommands r₃ w s =
      (Except.error (Err.hookFailed c),
        { s with trace := s.trace ++ pre.map Event.runHookCmd ++ [Event.runHookCmd c] }) := by
  unfold runBuildInitCommands runBuildBeforeCommands runBuildAfterCommands
  rw [h1, h2, h3]
  exact ⟨runPhase_failfast w s pre post c hpre hc,
    runPhase_failfast w s pre post c hpre hc,
    runPhase_failfast w s pre post c hpre hc⟩

def rPhases : Reloader :=
  { host := none,
    build := { init := ["a", "b", "c"], before := ["a", "b", "c"],
               after := ["a", "b", "c"], env := [] },
    run := none }

def wSecondFails : World := { wOK with hookResult := fun x => x == "a" }

theorem C8_phase_failfast_witness :
    runBuildInitCommands rPhases wSecondFails s0 =
      (Except.error (Err.hookFailed "b"),
        { s0 with trace := s0.trace ++ ["a"].map Event.runHookCmd ++ [Event.runHookCmd "b"] }) ∧
    runBuildBeforeCommands rPhases wSecondFails s0 =
      (Except.error (Err.hookFailed "b"),
        { s0 with trace := s0.trace ++ ["a"].map Event.runHookCmd ++ [Event.runHookCmd "b"] }) ∧
    runBuildAfterCommands rPhases wSecondFails s0 =
      (Except.error (Err.hookFailed "b"),
        { s0 with trace := s0.trace ++ ["a"].map Event.runHookCmd ++ [Event.runHookCmd "b"] }) :=
  C8_phase_failfast rPhases rPhases rPhases wSecondFails s0 ["a"] ["c"] "b"
    (by decide) (by decide) rfl rfl rfl

/-- C9: the `Build` struct declared in config.go carries only the
environment mapping, so the build-section extraction of `LoadConfig` drops
the three ordered command lists the spec (and reloader.go, which reads
`r.build.Init`, `r.build.Before` and `r.build.After`) requires: two
documents differing only in their init/before/after lists load identically,
and a document with an init command loads to a record holding nothing but
its environment. -/
theorem C9_load_config_drops_phase_lists :
    loadBuildSection { init := ["echo hi"], before := ["gen b"], after := ["gen a"], env := [] }
      = loadBuildSection { init := [], before := [], after := [], env := [] } ∧
    loadBuildSection { init := ["echo hi"], before := ["gen b"], after := ["gen a"], env := [] }
      = { env := [] } :=
  ⟨rfl, rfl⟩

/-- C10: `stopCurrentProcess` is atomic on error and idempotent — with no
tracked record it succeeds without any effect; when stopping the tracked
process fails the record remains tracked; on success the record is cleared
and an immediately repeated stop is a trivial no-op. -/
theorem C10_stop_atomic_idempotent (w₁ w₂ w₃ : World) (s₁ s₂ s₃ : St) (c₂ c₃ : Command)
    (h₁ : s₁.cmd = none)
    (h₂ : s₂.cmd = some c₂) (hw₂ : w₂.stopOk = false)
    (h₃ : s₃.cmd = some c₃) (hw₃ : w₃.stopOk = true) :
    stopCurrentProcess w₁ s₁ = (Except.ok (), s₁) ∧
    stopCurrentProcess w₂ s₂ =
      (Except.error Err.stopFailed, { s₂ with trace := s₂.trace ++ [Event.stopProc] }) ∧
    (stopCurrentProcess w₂ s₂).2.cmd = some c₂ ∧
    stopCurrentProcess w₃ s₃ =
      (Except.ok (), { s₃ with cmd := none, trace := s₃.trace ++ [Event.stopProc] }) ∧
    stopCurrentProcess w₃ { s₃ with cmd := none, trace := s₃.trace ++ [Event.stopProc] } =
      (Except.ok (), { s₃ with cmd := none, trace := s₃.trace ++ [Event.stopProc] }) := by
  refine ⟨?_, ?_, ?_, ?_, ?_⟩ <;>
    simp [stopCurrentProcess, h₁, h₂, h₃, hw₂, hw₃]

theorem C10_stop_atomic_idempotent_witness :
    stopCurrentProcess wOK s0 = (Except.ok (), s0) ∧
    stopCurrentProcess wStopFail sRun =
      (Except.error Err.stopFailed, { sRun with trace := sRun.trace ++ [Event.stopProc] }) ∧
    (stopCurrentProcess wStopFail sRun).2.cmd = some cRun ∧
    stopCurrentProcess wOK sRun =
      (Except.ok (), { sRun with cmd := none, trace := sRun.trace ++ [Event.stopProc] }) ∧
    stopCurrentProcess wOK { sRun with cmd := none, trace := sRun.trace ++ [Event.stopProc] } =
      (Except.ok (), { sRun with cmd := none, trace := sRun.trace ++ [Event.stopProc] }) :=
  C10_stop_atomic_idempotent wOK wStopFail wOK s0 sRun sRun cRun cRun rfl rfl rfl rfl rfl

/-- C2 counterexample: a Local configuration (no remote target) whose
startup succeeds, yet the pid file is never written — the Identity Store
stays empty and no pid-write effect appears in the trace, contradicting the
claim that a successful Local startup persists the own process id. -/
theorem C2_counterexample :
    (RunStartup rLocal wOK s0).1 = Except.ok () ∧
    (RunStartup rLocal wOK s0).2.pidFile = none ∧
    Event.writePid wOK.ownPid ∉ (RunStartup rLocal wOK s0).2.trace := by
  refine ⟨rfl, rfl, by decide⟩

/-- C2 amended: for every configuration with no remote target, a successful
startup runs the full build (init hooks, then before hooks, compile, after
hooks) and then starts the program via the Process Handle — but it does not
persist the own process id: the Identity Store content is left unchanged
(the pid file is written only in the InsideRemote branch). -/
theorem C2_local_startup_behaviour (r : Reloader) (w : World) (s : St)
    (hd : isUsedDocker r = false) (hc : s.cmd = none)
    (hi : ∀ x ∈ r.build.init, w.hookResult x = true)
    (hb : ∀ x ∈ r.build.before, w.hookResult x = true)
    (ha : ∀ x ∈ r.build.after, w.hookResult x = true)
    (hcmp : w.compileOk buildPath = true) :
    RunStartup r w s =
      (Except.ok (), { s with
        cmd := some { path := buildPath, env := runEnv r },
        trace := s.trace
          ++ r.build.init.map Event.runHookCmd
          ++ r.build.before.map Event.runHookCmd
          ++ [Event.compile buildPath "." none]
          ++ r.build.after.map Event.runHookCmd
          ++ [Event.startProc buildPath (runEnv r)] }) := by
  have hcross : crossOf r w = none := by simp [crossOf, hd]
  have hrun : RunStartup r w s = localStartup r w s := by
    unfold RunStartup IsEnabledReload
    simp [hd]
  rw [hrun]
  unfold localStartup runBuildInitCommands
  rw [runPhase_ok w r.build.init s hi]
  simp only []
  rw [xbuild_ok r w buildPath "." _ hb ha hcmp]
  simp only []
  simp [reload_fresh, hc, hcross]

theorem C2_local_startup_behaviour_witness :
    RunStartup rLocal wOK s0 =
      (Except.ok (), { s0 with
        cmd := some { path := buildPath, env := runEnv rLocal },
        trace := s0.trace
          ++ rLocal.build.init.map Event.runHookCmd
          ++ rLocal.build.before.map Event.runHookCmd
          ++ [Event.compile buildPath "." none]
          ++ rLocal.build.after.map Event.runHookCmd
          ++ [Event.startProc buildPath (runEnv rLocal)] }) :=
  C2_local_startup_behaviour rLocal wOK s0 rfl rfl
    (fun x _ => rfl) (fun x _ => rfl) (fun x _ => rfl) rfl

/-- C3 counterexample: with a remote target configured and the
inside-remote marker present, the startup effect trace differs from the
Local startup effect trace of the otherwise identical configuration — the
InsideRemote branch writes the pid and skips the build, so the two startup
behaviours are not identical. -/
theorem C3_counterexample :
    (RunStartup rDocker wIn s0).2.trace ≠ (RunStartup rLocal wOK s0).2.trace := by
  decide

/-- C3 amended: with a remote target configured and the marker present, the
startup persists the own process id to the Identity Store and then starts
the program via the Process Handle without rebuilding — unlike Local, which
builds but never writes the pid file. -/
theorem C3_inside_remote_startup_behaviour (r : Reloader) (w : World) (s : St)
    (hd : isUsedDocker r = true) (hm : w.onDocker = true)
    (hw : w.writeOk = true) (hc : s.cmd = none) :
    RunStartup r w s =
      (Except.ok (), { s with
        cmd := some { path := buildPath, env := runEnv r },
        pidFile := some (natToDecimal w.ownPid),
        trace := s.trace
          ++ [Event.writePid w.ownPid, Event.startProc buildPath (runEnv r)] }) := by
  have hrun : RunStartup r w s = insideRemoteStartup r w s := by
    unfold RunStartup IsEnabledReload
    simp [hd, hm]
  rw [hrun]
  unfold insideRemoteStartup writePID
  simp only [hw, if_true]
  simp [reload_fresh, hc]

theorem C3_inside_remote_startup_behaviour_witness :
    RunStartup rDocker wIn s0 =
      (Except.ok (), { s0 with
        cmd := some { path := buildPath, env := runEnv rDocker },
        pidFile := some (natToDecimal wIn.ownPid),
        trace := s0.trace
          ++ [Event.writePid wIn.ownPid, Event.startProc buildPath (runEnv rDocker)] }) :=
  C3_inside_remote_startup_behaviour rDocker wIn s0 (by decide) rfl rfl rfl

/-- C4 counterexample: a reload trigger handled with a remote target
configured and the marker absent (HostDelegating) does rebuild the
artifact — the compile effect, cross-targeted at the container, appears in
the trace of `Reload`, contradicting the claim that no rebuild happens. -/
theorem C4_counterexample :
    Event.compile buildPath "." (some "app") ∈ (Reload rDocker wOK sPid7).2.trace := by
  decide

/-- C4 amended: for every reload trigger handled in HostDelegating
topology, the supervisor rebuilds the artifact (cross-compiled for the
remote platform), then reads the peer process id from the Identity Store
and delivers a restart signal to that id via the Remote Command Gateway;
an Identity-Store read failure aborts the signal delivery with the
not-found error, no gateway command being issued. -/
theorem C4_hostdelegating_reload (r : Reloader) (w : World) (s t : St) (p : Nat)
    (hd : isUsedDocker r = true) (hm : w.onDocker = false)
    (hb : ∀ x ∈ r.build.before, w.hookResult x = true)
    (ha : ∀ x ∈ r.build.after, w.hookResult x = true)
    (hcmp : w.compileOk buildPath = true)
    (hs : s.pidFile = some (natToDecimal p)) (hp : p < int64Cutoff)
    (hdk : w.dockerOk ["kill", "-HUP", toString (Int.ofNat p)] = true)
    (ht : t.pidFile = none) :
    Reload r w s =
      (Except.ok (), { s with
        trace := s.trace
          ++ r.build.before.map Event.runHookCmd
          ++ [Event.compile buildPath "." (some (dockerName r))]
          ++ r.build.after.map Event.runHookCmd
          ++ [Event.readPid,
              Event.dockerExec (dockerName r) ["kill", "-HUP", toString (Int.ofNat p)]] }) ∧
    (Reload r w t).1 = Except.error Err.pidFileNotFound ∧
    (Reload r w t).2.trace = t.trace
      ++ r.build.before.map Event.runHookCmd
      ++ [Event.compile buildPath "." (some (dockerName r))]
      ++ r.build.after.map Event.runHookCmd
      ++ [Event.readPid] := by
  have hcross : crossOf r w = some (dockerName r) := by simp [crossOf, hd, hm]
  refine ⟨?_, ?_, ?_⟩
  · unfold Reload
    rw [xbuild_ok r w buildPath "." s hb ha hcmp]
    simp only []
    unfold sendReloadingSignal
    simp only [hd, if_true]
    have hS : ({ s with trace := s.trace
        ++ r.build.before.map Event.runHookCmd
        ++ [Event.compile buildPath "." (crossOf r w)]
        ++ r.build.after.map Event.runHookCmd } : St).pidFile
          = some (natToDecimal p) := hs
    rw [readPID_decimal _ p hp hS]
    simp only []
    simp [hcross, List.append_assoc]
    exact hdk
  · unfold Reload
    rw [xbuild_ok r w buildPath "." t hb ha hcmp]
    simp only []
    unfold sendReloadingSignal
    simp only [hd, if_true]
    unfold readPID
    simp [ht]
  · unfold Reload
    rw [xbuild_ok r w buildPath "." t hb ha hcmp]
    simp only []
    unfold sendReloadingSignal
    simp only [hd, if_true]
    unfold readPID
    simp [ht, hcross, List.append_assoc]

theorem C4_hostdelegating_reload_witness :
    Reload rDocker wOK sPidN =
      (Except.ok (), { sPidN with
        trace := sPidN.trace
          ++ rDocker.build.before.map Event.runHookCmd
          ++ [Event.compile buildPath "." (some (dockerName rDocker))]
          ++ rDocker.build.after.map Event.runHookCmd
          ++ [Event.readPid,
              Event.dockerExec (dockerName rDocker) ["kill", "-HUP", toString (Int.ofNat 7)]] }) ∧
    (Reload rDocker wOK s0).1 = Except.error Err.pidFileNotFound ∧
    (Reload rDocker wOK s0).2.trace = s0.trace
      ++ rDocker.build.before.map Event.runHookCmd
      ++ [Event.compile buildPath "." (some (dockerName rDocker))]
      ++ rDocker.build.after.map Event.runHookCmd
      ++ [Event.readPid] :=
  C4_hostdelegating_reload rDocker wOK sPidN s0 7 (by decide) rfl
    (fun x _ => rfl) (fun x _ => rfl) rfl rfl (by decide) rfl rfl

/-- C5 counterexample: an instance with a remote target configured and the
marker present (InsideRemote) handles the delivered reload signal by
restarting the child in process without any rebuild — the handler trace
holds only the stop and start effects, no compile, and the restart is not
conditioned on any build succeeding, contradicting the claim for the
InsideRemote topology. -/
theorem C5_counterexample :
    isUsedDocker rDocker = true ∧ wIn.onDocker = true ∧
    (sighupHandler rDocker wIn sInside).1 = Except.ok () ∧
    (sighupHandler rDocker wIn sInside).2.trace =
      [Event.stopProc, Event.startProc buildPath []] := by
  refine ⟨rfl, rfl, rfl, rfl⟩

/-- C5 amended: in Local topology a reload trigger handled through `Reload`
rebuilds the artifact and only on build success restarts the instance in
process (current child stopped, new child started on the fresh artifact);
on build failure no restart happens and the previous child stays tracked.
An InsideRemote instance, by contrast, handles the relayed reload signal by
restarting the child in process without rebuilding (the rebuild happened on
the delegating host). -/
theorem C5_local_rebuild_restart (r : Reloader) (w₁ w₂ : World) (s : St) (c : Command)
    (hd : isUsedDocker r = false) (hc : s.cmd = some c)
    (hb₁ : ∀ x ∈ r.build.before, w₁.hookResult x = true)
    (hcmp₁ : w₁.compileOk buildPath = false)
    (hb₂ : ∀ x ∈ r.build.before, w₂.hookResult x = true)
    (ha₂ : ∀ x ∈ r.build.after, w₂.hookResult x = true)
    (hcmp₂ : w₂.compileOk buildPath = true) (hst₂ : w₂.stopOk = true)
    (r₂ : Reloader) (w₃ : World) (s₃ : St) (c₃ : Command)
    (hd₂ : isUsedDocker r₂ = true) (hm₃ : w₃.onDocker = true)
    (hst₃ : w₃.stopOk = true) (hc₃ : s₃.cmd = some c₃) :
    (Reload r w₁ s).1 = Except.error (Err.compileFailed buildPath) ∧
    (Reload r w₁ s).2.cmd = some c ∧
    (Reload r w₁ s).2.trace = s.trace
      ++ r.build.before.map Event.runHookCmd
      ++ [Event.compile buildPath "." (crossOf r w₁)] ∧
    Reload r w₂ s =
      (Except.ok (), { s with
        cmd := some { path := buildPath, env := runEnv r },
        trace := s.trace
          ++ r.build.before.map Event.runHookCmd
          ++ [Event.compile buildPath "." (crossOf r w₂)]
          ++ r.build.after.map Event.runHookCmd
          ++ [Event.stopProc, Event.startProc buildPath (runEnv r)] }) ∧
    sighupHandler r₂ w₃ s₃ =
      (Except.ok (), { s₃ with
        cmd := some { path := buildPath, env := runEnv r₂ },
        trace := s₃.trace ++ [Event.stopProc, Event.startProc buildPath (runEnv r₂)] }) := by
  refine ⟨?_, ?_, ?_, ?_, ?_⟩
  · unfold Reload
    rw [xbuild_compile_fail r w₁ buildPath "." s hb₁ hcmp₁]
  · unfold Reload
    rw [xbuild_compile_fail r w₁ buildPath "." s hb₁ hcmp₁]
    exact hc
  · unfold Reload
    rw [xbuild_compile_fail r w₁ buildPath "." s hb₁ hcmp₁]
  · unfold Reload
    rw [xbuild_ok r w₂ buildPath "." s hb₂ ha₂ hcmp₂]
    simp only []
    unfold sendReloadingSignal
    simp only [hd, Bool.false_eq_true, if_false]
    simp [reload_running, hc, hst₂, List.append_assoc]
  · unfold sighupHandler
    rw [reload_running r₂ w₃ s₃ c₃ hc₃ hst₃]

theorem C5_local_rebuild_restart_witness :
    (Reload rLocal wCompileFail sRun).1 = Except.error (Err.compileFailed buildPath) ∧
    (Reload rLocal wCompileFail sRun).2.cmd = some cRun ∧
    (Reload rLocal wCompileFail sRun).2.trace = sRun.trace
      ++ rLocal.build.before.map Event.runHookCmd
      ++ [Event.compile buildPath "." (crossOf rLocal wCompileFail)] ∧
    Reload rLocal wOK sRun =
      (Except.ok (), { sRun with
        cmd := some { path := buildPath, env := runEnv rLocal },
        trace := sRun.trace
          ++ rLocal.build.before.map Event.runHookCmd
          ++ [Event.compile buildPath "." (crossOf rLocal wOK)]
          ++ rLocal.build.after.map Event.runHookCmd
          ++ [Event.stopProc, Event.startProc buildPath (runEnv rLocal)] }) ∧
    sighupHandler rDocker wIn sInside =
      (Except.ok (), { sInside with
        cmd := some { path := buildPath, env := runEnv rDocker },
        trace := sInside.trace
          ++ [Event.stopProc, Event.startProc buildPath (runEnv rDocker)] }) :=
  C5_local_rebuild_restart rLocal wCompileFail wOK sRun cRun rfl rfl
    (fun x _ => rfl) rfl (fun x _ => rfl) (fun x _ => rfl) rfl rfl
    rDocker wIn sInside cRun (by decide) rfl rfl rfl

/-- C6 counterexample: in Local topology with a tracked child, `Close`
returns success immediately and leaves the state untouched — the child is
neither stopped nor cleared, contradicting the claim that the Local
shutdown terminates the tracked child. -/
theorem C6_counterexample :
    Close rLocal wOK sRun = (Except.ok (), sRun) ∧ sRun.cmd = some cRun := by
  refine ⟨rfl, rfl⟩

/-- C6 amended: with no remote target configured, `Close` is a no-op
returning success and touching nothing; the terminate-the-tracked-child
behaviour (with a subsequent no-op shutdown) belongs to the InsideRemote
branch; in HostDelegating topology `Close` reads the recorded peer process
id and issues exactly one remote termination signal addressed at that id
via the Remote Command Gateway, touching no local child. -/
theorem C6_close_behaviour
    (r₁ : Reloader) (w₁ : World) (s₁ : St)
    (hd₁ : isUsedDocker r₁ = false)
    (r₂ : Reloader) (w₂ : World) (s₂ : St) (c₂ : Command)
    (hd₂ : isUsedDocker r₂ = true) (hm₂ : w₂.onDocker = true)
    (hc₂ : s₂.cmd = some c₂) (hst₂ : w₂.stopOk = true)
    (r₃ : Reloader) (w₃ : World) (s₃ : St) (p : Nat)
    (hd₃ : isUsedDocker r₃ = true) (hm₃ : w₃.onDocker = false)
    (hs₃ : s₃.pidFile = some (natToDecimal p)) (hp : p < int64Cutoff)
    (hdk : w₃.dockerOk ["kill", "-QUIT", toString (Int.ofNat p)] = true) :
    Close r₁ w₁ s₁ = (Except.ok (), s₁) ∧
    Close r₂ w₂ s₂ =
      (Except.ok (), { s₂ with cmd := none, trace := s₂.trace ++ [Event.stopProc] }) ∧
    Close r₂ w₂ { s₂ with cmd := none, trace := s₂.trace ++ [Event.stopProc] } =
      (Except.ok (), { s₂ with cmd := none, trace := s₂.trace ++ [Event.stopProc] }) ∧
    Close r₃ w₃ s₃ =
      (Except.ok (), { s₃ with
        trace := s₃.trace
          ++ [Event.readPid,
              Event.dockerExec (dockerName r₃) ["kill", "-QUIT", toString (Int.ofNat p)]] }) := by
  refine ⟨?_, ?_, ?_, ?_⟩
  · simp [Close, hd₁]
  · simp [Close, hd₂, hm₂, stopCurrentProcess, hc₂, hst₂]
  · simp [Close, hd₂, hm₂, stopCurrentProcess]
  · unfold Close
    simp only [hd₃, hm₃, Bool.not_true, Bool.false_eq_true, if_false]
    rw [readPID_decimal s₃ p hp hs₃]
    simp only []
    simp [List.append_assoc]
    exact hdk

theorem C6_close_behaviour_witness :
    Close rLocal wOK sRun = (Except.ok (), sRun) ∧
    Close rDocker wIn sRun =
      (Except.ok (), { sRun with cmd := none, trace := sRun.trace ++ [Event.stopProc] }) ∧
    Close rDocker wIn { sRun with cmd := none, trace := sRun.trace ++ [Event.stopProc] } =
      (Except.ok (), { sRun with cmd := none, trace := sRun.trace ++ [Event.stopProc] }) ∧
    Close rDocker wOK sPidN =
      (Except.ok (), { sPidN with
        trace := sPidN.trace
          ++ [Event.readPid,
              Event.dockerExec (dockerName rDocker) ["kill", "-QUIT", toString (Int.ofNat 7)]] }) :=
  C6_close_behaviour rLocal wOK sRun rfl rDocker wIn sRun cRun (by decide) rfl rfl rfl
    rDocker wOK sPidN 7 (by decide) rfl rfl (by decide) rfl

end Rebirth
